import Mathlib

/-!
Verification of `kirvano_webhook_server_seguro.py` (webhook-kirvano).

The source is a FastAPI app with one business endpoint, `POST /webhook/kirvano`
(`webhook_kirvano`), helper `extract_user_id_from_kirvano_data`, five event
handlers (`processar_venda_aprovada`, `processar_assinatura_criada`,
`processar_assinatura_renovada`, `processar_assinatura_cancelada`,
`processar_reembolso`) and the notifier `notificar_admin`.

We shallowly embed the Python values flowing through the handler as an
inductive `Json` type, model Python's truthiness, `str.isdigit`, `int(...)`
coercion and `dict.get` (including the `AttributeError` raised when the
receiver is not a dict), and model raised exceptions with `Except PyError`.
The model covers ASCII digit strings for `isdigit`/`int` (the unicode-digit
corner of those builtins is outside the payloads treated here).
-/

namespace KirvanoWebhook

/-- A JSON-like Python value, as produced by FastAPI's `request.json()`. -/
inductive Json where
  | null
  | bool (b : Bool)
  | int (n : Int)
  | str (s : String)
  | arr (elems : List Json)
  | obj (fields : List (String × Json))

/-- A raised Python exception, as it reaches the endpoint's `except Exception`
handler. `httpException` is FastAPI's `HTTPException` (a subclass of
`Exception`, hence caught by that blanket handler). -/
inductive PyError where
  | httpException (status : Nat) (detail : String)
  | valueError (msg : String)
  | typeError (msg : String)
  | attributeError (msg : String)
deriving DecidableEq

/-- `str(e)` for the exceptions above. For `HTTPException`, starlette renders
`f"{status_code}: {detail}"`. -/
def strPyError : PyError → String
  | .httpException status detail => toString status ++ ": " ++ detail
  | .valueError msg => msg
  | .typeError msg => msg
  | .attributeError msg => msg

mutual

/-- Python `repr` of a value (used by `str` on containers). String escaping
inside `repr` is not modelled beyond quoting. -/
def py_repr : Json → String
  | Json.null => "None"
  | Json.bool true => "True"
  | Json.bool false => "False"
  | Json.int n => toString n
  | Json.str s => "'" ++ s ++ "'"
  | Json.arr xs => "[" ++ py_repr_elems xs ++ "]"
  | Json.obj fs => "\x7b" ++ py_repr_fields fs ++ "\x7d"

/-- Comma-separated `repr`s of list elements. -/
def py_repr_elems : List Json → String
  | [] => ""
  | [v] => py_repr v
  | v :: w :: rest => py_repr v ++ ", " ++ py_repr_elems (w :: rest)

/-- Comma-separated `'key': repr(value)` renderings of dict items. -/
def py_repr_fields : List (String × Json) → String
  | [] => ""
  | [(k, v)] => "'" ++ k ++ "': " ++ py_repr v
  | (k, v) :: kv :: rest => "'" ++ k ++ "': " ++ py_repr v ++ ", " ++ py_repr_fields (kv :: rest)

end

/-- Python `str(x)`, as interpolated by the f-strings in the source. -/
def py_str : Json → String
  | Json.str s => s
  | v => py_repr v

/-- Python truthiness of a value (`if x:` / `x or y`). -/
def Json.truthy : Json → Bool
  | Json.null => false
  | Json.bool b => b
  | Json.int n => n != 0
  | Json.str s => s != ""
  | Json.arr xs => !xs.isEmpty
  | Json.obj fs => !fs.isEmpty

/-- `x == s` for a Python value `x` against a `str` literal `s`: equal only
when `x` is an equal string (cross-type `==` is `False`, never a raise). -/
def pyEqStr : Json → String → Bool
  | Json.str t, s => t == s
  | _, _ => false

/-- Python `int(s)` for a string: optional surrounding whitespace, optional
sign, then decimal digits; anything else raises `ValueError`. -/
def pyIntOfString (s : String) : Option Int :=
  let cs := ((s.toList.dropWhile Char.isWhitespace).reverse.dropWhile Char.isWhitespace).reverse
  match cs with
  | [] => none
  | '+' :: rest =>
      if rest ≠ [] ∧ rest.all Char.isDigit then
        some (Int.ofNat (rest.foldl (fun acc c => acc * 10 + (c.toNat - 48)) 0))
      else none
  | '-' :: rest =>
      if rest ≠ [] ∧ rest.all Char.isDigit then
        some (-(Int.ofNat (rest.foldl (fun acc c => acc * 10 + (c.toNat - 48)) 0)))
      else none
  | _ =>
      if cs.all Char.isDigit then
        some (Int.ofNat (cs.foldl (fun acc c => acc * 10 + (c.toNat - 48)) 0))
      else none

/-- Python `int(x)` on a JSON-shaped value: ints pass through, bools coerce,
parsable strings parse, everything else raises (`ValueError`/`TypeError`). -/
def py_int : Json → Except PyError Int
  | Json.int n => .ok n
  | Json.bool b => .ok (if b then 1 else 0)
  | Json.str s =>
      match pyIntOfString s with
      | some n => .ok n
      | none => .error (.valueError ("invalid literal for int() with base 10: '" ++ s ++ "'"))
  | Json.null => .error (.typeError "int() argument must be a string, a bytes-like object or a real number, not 'NoneType'")
  | Json.arr _ => .error (.typeError "int() argument must be a string, a bytes-like object or a real number, not 'list'")
  | Json.obj _ => .error (.typeError "int() argument must be a string, a bytes-like object or a real number, not 'dict'")

/-- Python `x.isdigit()`: defined on strings (nonempty, all digits); on any
other value the attribute access raises `AttributeError`. -/
def py_isdigit : Json → Except PyError Bool
  | Json.str s => .ok (decide (s ≠ "") && s.toList.all Char.isDigit)
  | Json.null => .error (.attributeError "'NoneType' object has no attribute 'isdigit'")
  | Json.bool _ => .error (.attributeError "'bool' object has no attribute 'isdigit'")
  | Json.int _ => .error (.attributeError "'int' object has no attribute 'isdigit'")
  | Json.arr _ => .error (.attributeError "'list' object has no attribute 'isdigit'")
  | Json.obj _ => .error (.attributeError "'dict' object has no attribute 'isdigit'")

/-- Python `x.get(key, default)`: dict lookup with default; on a non-dict
receiver the attribute access raises `AttributeError`. -/
def dictGetD (x : Json) (key : String) (default : Json) : Except PyError Json :=
  match x with
  | Json.obj fs => .ok ((fs.lookup key).getD default)
  | Json.null => .error (.attributeError "'NoneType' object has no attribute 'get'")
  | Json.bool _ => .error (.attributeError "'bool' object has no attribute 'get'")
  | Json.int _ => .error (.attributeError "'int' object has no attribute 'get'")
  | Json.str _ => .error (.attributeError "'str' object has no attribute 'get'")
  | Json.arr _ => .error (.attributeError "'list' object has no attribute 'get'")

/-- The three environment strings read once at startup (`os.getenv` yields
`None` when unset; a set-but-empty variable is falsy like `None`). -/
structure Config where
  kirvanoToken : Option String
  botToken : Option String
  adminChatId : Option String

/-- Python truthiness of an `os.getenv` result. -/
def optTruthy : Option String → Bool
  | none => false
  | some s => s != ""

/-- `validar_token(request_token)`: accept-all when `KIRVANO_TOKEN` is falsy,
otherwise plain `==` against the configured secret. -/
def validar_token (cfg : Config) (request_token : Json) : Bool :=
  if !optTruthy cfg.kirvanoToken then true
  else pyEqStr request_token (cfg.kirvanoToken.getD "")

/-! ### Event handlers

Each `processar_*` coroutine formats one HTML message and passes it to
`notificar_admin`; we model a handler as the list of messages it submits to
the notifier (each `data.get` can in principle raise, hence `Except`, though
these handlers only run once `data` is known to be a dict). -/

/-- `processar_venda_aprovada(user_id, data)`: format the new-sale message
and submit it to the notifier. -/
def processar_venda_aprovada (user_id : Int) (data : Json) : Except PyError (List String) :=
  match dictGetD data "total_price" (Json.str "N/A") with
  | .error e => .error e
  | .ok total_price =>
    match dictGetD data "payment_method" (Json.str "N/A") with
    | .error e => .error e
    | .ok payment_method =>
      match dictGetD data "sale_id" (Json.str "N/A") with
      | .error e => .error e
      | .ok sale_id =>
        .ok ["✅ <b>NOVA VENDA!</b>\n\n👤 User ID: <code>" ++ toString user_id
              ++ "</code>\n💰 Valor: " ++ py_str total_price
              ++ "\n💳 Método: " ++ py_str payment_method
              ++ "\n🆔 Sale ID: " ++ py_str sale_id
              ++ "\n\n⚠️ <b>ATENÇÃO:</b> Ativar manualmente até integrar com bot!"]

/-- `processar_assinatura_criada(user_id, data)`: logs, then delegates
verbatim to `processar_venda_aprovada`. -/
def processar_assinatura_criada (user_id : Int) (data : Json) : Except PyError (List String) :=
  processar_venda_aprovada user_id data

/-- `processar_assinatura_renovada(user_id, data)`. -/
def processar_assinatura_renovada (user_id : Int) (data : Json) : Except PyError (List String) :=
  match dictGetD data "total_price" (Json.str "N/A") with
  | .error e => .error e
  | .ok total_price =>
    match dictGetD data "sale_id" (Json.str "N/A") with
    | .error e => .error e
    | .ok sale_id =>
      .ok ["🔄 <b>RENOVAÇÃO</b>\n\n👤 User ID: <code>" ++ toString user_id
            ++ "</code>\n💰 Valor: " ++ py_str total_price
            ++ "\n🆔 Sale ID: " ++ py_str sale_id]

/-- `processar_assinatura_cancelada(user_id, data)`. -/
def processar_assinatura_cancelada (user_id : Int) (data : Json) : Except PyError (List String) :=
  match dictGetD data "sale_id" (Json.str "N/A") with
  | .error e => .error e
  | .ok sale_id =>
    .ok ["❌ <b>CANCELAMENTO</b>\n\n👤 User ID: <code>" ++ toString user_id
          ++ "</code>\n🆔 Sale ID: " ++ py_str sale_id]

/-- `processar_reembolso(user_id, data)`. -/
def processar_reembolso (user_id : Int) (data : Json) : Except PyError (List String) :=
  match dictGetD data "sale_id" (Json.str "N/A") with
  | .error e => .error e
  | .ok sale_id =>
    .ok ["💸 <b>REEMBOLSO</b>\n\n👤 User ID: <code>" ++ toString user_id
          ++ "</code>\n🆔 Sale ID: " ++ py_str sale_id
          ++ "\n\n⚠️ Desativar usuário manualmente!"]

/-! ### Identity extraction -/

/-- `extract_user_id_from_kirvano_data(data)`.

Source order: `customer = data.get('customer', {})`;
`phone = customer.get('phone_number', '')`; `if phone.isdigit(): try: return
int(phone) except: pass`; then `metadata = data.get('metadata', {})`;
`user_id = metadata.get('telegram_user_id') or metadata.get('user_id')`
(short-circuit: the second `get` runs only when the first value is falsy);
`if user_id: return int(user_id)`; else `return None`. The Python function
returns `int | None` and may raise; we return `Except PyError (Option Int)`. -/
def extract_user_id_from_kirvano_data (data : Json) : Except PyError (Option Int) :=
  match dictGetD data "customer" (Json.obj []) with
  | .error e => .error e
  | .ok customer =>
    match dictGetD customer "phone_number" (Json.str "") with
    | .error e => .error e
    | .ok phone =>
      match py_isdigit phone with
      | .error e => .error e
      | .ok isd =>
        -- continuation shared by the digit branch's swallowed `except: pass`
        -- and the non-digit branch
        let metadataLookup : Except PyError (Option Int) :=
          match dictGetD data "metadata" (Json.obj []) with
          | .error e => .error e
          | .ok metadata =>
            match dictGetD metadata "telegram_user_id" Json.null with
            | .error e => .error e
            | .ok tuid =>
              if tuid.truthy then
                match py_int tuid with
                | .error e => .error e
                | .ok n => .ok (some n)
              else
                match dictGetD metadata "user_id" Json.null with
                | .error e => .error e
                | .ok uid2 =>
                  if uid2.truthy then
                    match py_int uid2 with
                    | .error e => .error e
                    | .ok n => .ok (some n)
                  else .ok none
        if isd then
          match py_int phone with
          | .ok n => .ok (some n)
          | .error _ => metadataLookup
        else metadataLookup

/-! ### Notifier -/

/-- The outbound Telegram `sendMessage` POST assembled by `notificar_admin`. -/
structure TelegramRequest where
  url : String
  chat_id : String
  text : String
  parse_mode : String
deriving DecidableEq

/-- Outcome of the outbound POST: an HTTP status, or a transport-level
exception with its text. -/
inductive NetOutcome where
  | status (code : Nat)
  | raised (msg : String)

/-- `notificar_admin(mensagem)`: return immediately (no request) when
`BOT_TOKEN` or `ADMIN_CHAT_ID` is falsy; otherwise attempt exactly one POST,
whose outcome — any status, or any raised transport exception — is only
logged inside the function's `try/except`, never propagated. The network is
an oracle `net`; the result records the attempted request, and the `Except`
layer shows no exception escapes to the caller. -/
def notificar_admin (cfg : Config) (mensagem : String)
    (net : TelegramRequest → NetOutcome) : Except PyError (Option TelegramRequest) :=
  if !optTruthy cfg.botToken || !optTruthy cfg.adminChatId then
    .ok none
  else
    let req : TelegramRequest :=
      { url := "https://api.telegram.org/bot" ++ cfg.botToken.getD "" ++ "/sendMessage"
        chat_id := cfg.adminChatId.getD ""
        text := mensagem
        parse_mode := "HTML" }
    match net req with
    | _ => .ok (some req)

/-! ### The webhook endpoint -/

/-- The `if evento == ... / elif ...` chain of `webhook_kirvano` (lines
131-148): run the matching handler, collecting its messages and recording
which handler ran with which user id; an unrecognized event only logs. -/
def dispatch_evento (evento : Json) (user_id : Int) (data : Json) :
    Except PyError (List String × List (String × Int)) :=
  if pyEqStr evento "SALE_APPROVED" then
    match processar_venda_aprovada user_id data with
    | .error e => .error e
    | .ok msgs => .ok (msgs, [("processar_venda_aprovada", user_id)])
  else if pyEqStr evento "SUBSCRIPTION_CREATED" then
    match processar_assinatura_criada user_id data with
    | .error e => .error e
    | .ok msgs => .ok (msgs, [("processar_assinatura_criada", user_id)])
  else if pyEqStr evento "SUBSCRIPTION_RENEWED" then
    match processar_assinatura_renovada user_id data with
    | .error e => .error e
    | .ok msgs => .ok (msgs, [("processar_assinatura_renovada", user_id)])
  else if pyEqStr evento "SUBSCRIPTION_CANCELED" then
    match processar_assinatura_cancelada user_id data with
    | .error e => .error e
    | .ok msgs => .ok (msgs, [("processar_assinatura_cancelada", user_id)])
  else if pyEqStr evento "REFUND_REQUESTED" then
    match processar_reembolso user_id data with
    | .error e => .error e
    | .ok msgs => .ok (msgs, [("processar_reembolso", user_id)])
  else
    -- `logger.warning(f"⚠️ Evento desconhecido: {evento}")` — log only
    .ok ([], [])

/-- Observable outcome of one `POST /webhook/kirvano` request: HTTP status,
JSON body, the messages handed to `notificar_admin` (in order), and the
handler invocations performed. -/
structure WebhookResult where
  status : Nat
  body : Json
  notifications : List String
  handlers : List (String × Int)

/-- Lines 113-128 of `webhook_kirvano`: the user id could not be resolved —
alert the admin and answer `200 {status:"error", message:"user_id not found"}`. -/
def webhook_sem_user_id (evento sale_id : Json) : Nat × Json × List String × List (String × Int) :=
  (200,
   Json.obj [("status", Json.str "error"), ("message", Json.str "user_id not found")],
   ["⚠️ Webhook sem user_id!\n\nEvento: " ++ py_str evento
     ++ "\nSale ID: " ++ py_str sale_id ++ "\nVerificar logs!"],
   [])

/-- The `try` block of `webhook_kirvano` (lines 89-157), on an
already-parsed JSON body `data` and the optional `X-Kirvano-Token` header.
Every raise inside this block happens before any `notificar_admin` call
(validation and extraction precede the alerts; handler `get`s precede the
handler's own alert and cannot fail once `data` is a dict), so an `.error`
result carries no earlier notifications. -/
def webhook_kirvano_try (cfg : Config) (data : Json) (headerToken : Option String) :
    Except PyError (Nat × Json × List String × List (String × Int)) :=
  -- lines 94-95: the log lines already call `data.get(...)`
  match dictGetD data "event" (Json.str "UNKNOWN") with
  | .error e => .error e
  | .ok _ =>
    match dictGetD data "sale_id" (Json.str "N/A") with
    | .error e => .error e
    | .ok _ =>
      -- line 98: `token = data.get('token') or request.headers.get('X-Kirvano-Token')`
      match dictGetD data "token" Json.null with
      | .error e => .error e
      | .ok bodyTok =>
        let token : Json :=
          if bodyTok.truthy then bodyTok
          else match headerToken with
               | some h => Json.str h
               | none => Json.null
        -- lines 100-103: `if KIRVANO_TOKEN and token: if not validar_token(token): raise HTTPException(401, ...)`
        if optTruthy cfg.kirvanoToken && token.truthy && !validar_token cfg token then
          .error (.httpException 401 "Token inválido")
        else
          -- lines 106-108
          match dictGetD data "event" Json.null with
          | .error e => .error e
          | .ok evento =>
            match dictGetD data "sale_id" Json.null with
            | .error e => .error e
            | .ok sale_id =>
              match dictGetD data "checkout_id" Json.null with
              | .error e => .error e
              | .ok _checkout_id =>
                -- line 111
                match extract_user_id_from_kirvano_data data with
                | .error e => .error e
                | .ok user_id_telegram =>
                  -- line 113: `if not user_id_telegram:` (None and 0 are falsy)
                  match user_id_telegram with
                  | none => .ok (webhook_sem_user_id evento sale_id)
                  | some uid =>
                    if uid == 0 then .ok (webhook_sem_user_id evento sale_id)
                    else
                      match dispatch_evento evento uid data with
                      | .error e => .error e
                      | .ok (msgs, hs) =>
                        -- lines 150-157
                        .ok (200,
                             Json.obj [("status", Json.str "success"),
                                       ("message", Json.str "Webhook processado"),
                                       ("event", evento)],
                             msgs, hs)

/-- `webhook_kirvano` in full: the `try` block above, plus the blanket
`except Exception` (lines 159-168) that catches every raise — including the
`HTTPException(401)` raised at line 103 — alerts the admin with the
exception text, and answers HTTP 500. -/
def webhook_kirvano (cfg : Config) (data : Json) (headerToken : Option String) :
    WebhookResult :=
  match webhook_kirvano_try cfg data headerToken with
  | .ok (status, body, msgs, hs) =>
      { status := status, body := body, notifications := msgs, handlers := hs }
  | .error e =>
      { status := 500
        body := Json.obj [("status", Json.str "error"), ("message", Json.str (strPyError e))]
        notifications := ["❌ Erro no webhook:\n\n" ++ strPyError e]
        handlers := [] }

/-- The request passes the token check of lines 100-103 (no
`HTTPException(401)` raised): whenever a secret is configured and the
resolved token is truthy, the token validates. -/
def accepts_token (cfg : Config) (token : Json) : Prop :=
  (optTruthy cfg.kirvanoToken && token.truthy) = true → validar_token cfg token = true

/-! ## Helper lemmas -/

/-- An accepted token never triggers the `HTTPException(401)` guard
(stated on the `body-token or header` resolution with no header). -/
theorem accepted_guard_false (cfg : Config) (bt : Json)
    (hacc : accepts_token cfg bt) :
    (optTruthy cfg.kirvanoToken && (if bt.truthy then bt else Json.null).truthy &&
      !validar_token cfg (if bt.truthy then bt else Json.null)) = false := by
  by_cases hb : bt.truthy
  · simp only [hb, if_true]
    by_cases hk : optTruthy cfg.kirvanoToken
    · have hv : validar_token cfg bt = true := hacc (by simp [hk, hb])
      simp [hv]
    · simp [hk]
  · have hnull : (if bt.truthy then bt else Json.null) = Json.null := by simp [hb]
    rw [hnull]
    simp [Json.truthy]

/-- Evaluation of one accepted request on a dict body, with no
`X-Kirvano-Token` header: the endpoint's outcome is determined by identity
extraction and dispatch. -/
theorem webhook_accepted_eval (cfg : Config) (fs : List (String × Json))
    (hacc : accepts_token cfg ((fs.lookup "token").getD Json.null)) :
    webhook_kirvano cfg (Json.obj fs) none =
      match extract_user_id_from_kirvano_data (Json.obj fs) with
      | .error e =>
          { status := 500
            body := Json.obj [("status", Json.str "error"), ("message", Json.str (strPyError e))]
            notifications := ["❌ Erro no webhook:\n\n" ++ strPyError e]
            handlers := [] }
      | .ok none =>
          { status := 200
            body := Json.obj [("status", Json.str "error"), ("message", Json.str "user_id not found")]
            notifications := ["⚠️ Webhook sem user_id!\n\nEvento: "
              ++ py_str ((fs.lookup "event").getD Json.null) ++ "\nSale ID: "
              ++ py_str ((fs.lookup "sale_id").getD Json.null) ++ "\nVerificar logs!"]
            handlers := [] }
      | .ok (some uid) =>
          if uid == 0 then
            { status := 200
              body := Json.obj [("status", Json.str "error"), ("message", Json.str "user_id not found")]
              notifications := ["⚠️ Webhook sem user_id!\n\nEvento: "
                ++ py_str ((fs.lookup "event").getD Json.null) ++ "\nSale ID: "
                ++ py_str ((fs.lookup "sale_id").getD Json.null) ++ "\nVerificar logs!"]
              handlers := [] }
          else
            match dispatch_evento ((fs.lookup "event").getD Json.null) uid (Json.obj fs) with
            | .error e =>
                { status := 500
                  body := Json.obj [("status", Json.str "error"), ("message", Json.str (strPyError e))]
                  notifications := ["❌ Erro no webhook:\n\n" ++ strPyError e]
                  handlers := [] }
            | .ok (msgs, hs) =>
                { status := 200
                  body := Json.obj [("status", Json.str "success"),
                                    ("message", Json.str "Webhook processado"),
                                    ("event", (fs.lookup "event").getD Json.null)]
                  notifications := msgs
                  handlers := hs } := by
  have hguard := accepted_guard_false cfg ((fs.lookup "token").getD Json.null) hacc
  unfold webhook_kirvano webhook_kirvano_try
  simp only [dictGetD, hguard, Bool.false_eq_true, if_false, webhook_sem_user_id]
  cases hE : extract_user_id_from_kirvano_data (Json.obj fs) with
  | error e => rfl
  | ok uo =>
    cases uo with
    | none => rfl
    | some uid =>
      by_cases h0 : uid == 0
      · simp only [h0, if_true]
      · simp only [h0, Bool.false_eq_true, if_false]
        cases hD : dispatch_evento ((fs.lookup "event").getD Json.null) uid (Json.obj fs) with
        | error e => rfl
        | ok p => rfl

/-! ## Claims -/

/-- C1: the claim says a non-empty configured secret plus a supplied
non-matching token yields HTTP 401 with no notification. In the code the
`raise HTTPException(status_code=401, ...)` sits inside the endpoint's own
`try`, and `HTTPException` is an `Exception`, so the blanket
`except Exception` handler (lines 159-168) swallows it: the response is
actually HTTP 500, and one admin alert carrying the exception text is sent.
This theorem evaluates the endpoint at such a failing input: secret
`"secret"`, body token `"wrong"`. No event processing happens, but the
status is 500 (not 401) and an admin notification is issued. -/
theorem C1_invalid_token_caught_as_500
    : (webhook_kirvano ⟨some "secret", none, none⟩
        (Json.obj [("token", Json.str "wrong")]) none).status = 500 ∧
      (webhook_kirvano ⟨some "secret", none, none⟩
        (Json.obj [("token", Json.str "wrong")]) none).notifications =
        ["❌ Erro no webhook:\n\n401: Token inválido"] ∧
      (webhook_kirvano ⟨some "secret", none, none⟩
        (Json.obj [("token", Json.str "wrong")]) none).handlers = [] :=
  ⟨rfl, rfl, rfl⟩

/-- C2: with a non-empty configured secret but no token in either the body
field or the header, the `KIRVANO_TOKEN and token` guard is falsy, so
validation is bypassed and the request is processed exactly as it would be
with no secret configured at all. -/
theorem C2_missing_token_bypasses_validation (cfg : Config)
    (fs : List (String × Json))
    (hsec : optTruthy cfg.kirvanoToken = true)
    (htok : fs.lookup "token" = none) :
    webhook_kirvano cfg (Json.obj fs) none =
      webhook_kirvano { cfg with kirvanoToken := none } (Json.obj fs) none := by
  have hacc : accepts_token cfg ((fs.lookup "token").getD Json.null) := by
    intro h
    rw [htok] at h
    simp [Json.truthy] at h
  have hacc' : accepts_token { cfg with kirvanoToken := none }
      ((fs.lookup "token").getD Json.null) := by
    intro h
    simp [optTruthy] at h
  rw [webhook_accepted_eval cfg fs hacc,
      webhook_accepted_eval { cfg with kirvanoToken := none } fs hacc']

/-- C2 witness: secret configured, body has only an `event` field, no token
anywhere; the request is handled as if unauthenticated were allowed. -/
theorem C2_missing_token_bypasses_validation_witness :
    webhook_kirvano ⟨some "s3cr3t", none, none⟩
        (Json.obj [("event", Json.str "FOO")]) none =
      webhook_kirvano ⟨none, none, none⟩
        (Json.obj [("event", Json.str "FOO")]) none :=
  C2_missing_token_bypasses_validation ⟨some "s3cr3t", none, none⟩
    [("event", Json.str "FOO")] rfl rfl

/-- C3: identity extraction tries `customer.phone_number` first: any payload
carrying both an all-digit `customer.phone_number = "12345"` and
`metadata.telegram_user_id = 999` resolves to `12345`. -/
theorem C3_phone_number_checked_first (fs cs ms : List (String × Json))
    (hc : fs.lookup "customer" = some (Json.obj cs))
    (hp : cs.lookup "phone_number" = some (Json.str "12345"))
    (hm : fs.lookup "metadata" = some (Json.obj ms))
    (ht : ms.lookup "telegram_user_id" = some (Json.int 999)) :
    extract_user_id_from_kirvano_data (Json.obj fs) = .ok (some 12345) := by
  unfold extract_user_id_from_kirvano_data
  simp only [dictGetD, hc, hp, Option.getD_some]
  rfl

/-- C3 witness: the concrete two-field payload from the claim. -/
theorem C3_phone_number_checked_first_witness :
    extract_user_id_from_kirvano_data
        (Json.obj [("customer", Json.obj [("phone_number", Json.str "12345")]),
                   ("metadata", Json.obj [("telegram_user_id", Json.int 999)])]) =
      .ok (some 12345) :=
  C3_phone_number_checked_first
    [("customer", Json.obj [("phone_number", Json.str "12345")]),
     ("metadata", Json.obj [("telegram_user_id", Json.int 999)])]
    [("phone_number", Json.str "12345")]
    [("telegram_user_id", Json.int 999)]
    rfl rfl rfl rfl

/-- C4 counterexample: `metadata.telegram_user_id = ""` is present, non-null
and not coercible to an integer (`int("")` raises `ValueError`), yet — being
falsy — it is skipped by the `if user_id:` truthiness check: extraction does
not raise, it falls through to not-found, and the endpoint answers 200, not
500. -/
theorem C4_counterexample_falsy_uncoercible_id :
    extract_user_id_from_kirvano_data
        (Json.obj [("metadata", Json.obj [("telegram_user_id", Json.str "")])]) =
      .ok none ∧
    py_int (Json.str "") =
      .error (.valueError "invalid literal for int() with base 10: ''") ∧
    (webhook_kirvano ⟨none, none, none⟩
        (Json.obj [("metadata", Json.obj [("telegram_user_id", Json.str "")])]) none).status
      = 200 :=
  ⟨rfl, rfl, rfl⟩

/-- C4 (amended): if the phone path falls through with `isdigit()` false and
the metadata id selected by `metadata.get('telegram_user_id') or
metadata.get('user_id')` is present and TRUTHY but not coercible to an
integer (e.g. the string "abc"), then `int(user_id)` raises, the error
propagates out of extraction, and the endpoint answers HTTP 500 with the
exception text — unlike the phone path, whose parse failures are swallowed. -/
theorem C4_amended_truthy_uncoercible_id_propagates
    (fs cs ms : List (String × Json)) (v : Json) (e : PyError) (cfg : Config)
    (hc : fs.lookup "customer" = some (Json.obj cs))
    (hp : py_isdigit ((cs.lookup "phone_number").getD (Json.str "")) = .ok false)
    (hm : fs.lookup "metadata" = some (Json.obj ms))
    (hsel : (if ((ms.lookup "telegram_user_id").getD Json.null).truthy
               then (ms.lookup "telegram_user_id").getD Json.null
               else (ms.lookup "user_id").getD Json.null) = v)
    (hv : v.truthy = true)
    (he : py_int v = .error e)
    (hacc : accepts_token cfg ((fs.lookup "token").getD Json.null)) :
    extract_user_id_from_kirvano_data (Json.obj fs) = .error e ∧
    (webhook_kirvano cfg (Json.obj fs) none).status = 500 ∧
    (webhook_kirvano cfg (Json.obj fs) none).body =
      Json.obj [("status", Json.str "error"), ("message", Json.str (strPyError e))] := by
  have hext : extract_user_id_from_kirvano_data (Json.obj fs) = .error e := by
    unfold extract_user_id_from_kirvano_data
    simp only [dictGetD, hc, hp, hm, Option.getD_some]
    by_cases htu : ((ms.lookup "telegram_user_id").getD Json.null).truthy
    · rw [if_pos htu] at hsel
      simp [htu, hsel, hv, he]
    · rw [if_neg htu] at hsel
      simp [htu, hsel, hv, he]
  refine ⟨hext, ?_, ?_⟩ <;> rw [webhook_accepted_eval cfg fs hacc, hext]

/-- C4 witness for the amended claim: no phone, `telegram_user_id = "abc"`. -/
theorem C4_amended_truthy_uncoercible_id_propagates_witness :
    extract_user_id_from_kirvano_data
        (Json.obj [("customer", Json.obj []),
                   ("metadata", Json.obj [("telegram_user_id", Json.str "abc")])]) =
      .error (.valueError "invalid literal for int() with base 10: 'abc'") ∧
    (webhook_kirvano ⟨none, none, none⟩
        (Json.obj [("customer", Json.obj []),
                   ("metadata", Json.obj [("telegram_user_id", Json.str "abc")])]) none).status
      = 500 ∧
    (webhook_kirvano ⟨none, none, none⟩
        (Json.obj [("customer", Json.obj []),
                   ("metadata", Json.obj [("telegram_user_id", Json.str "abc")])]) none).body =
      Json.obj [("status", Json.str "error"),
                ("message", Json.str (strPyError
                  (.valueError "invalid literal for int() with base 10: 'abc'")))] :=
  C4_amended_truthy_uncoercible_id_propagates
    [("customer", Json.obj []),
     ("metadata", Json.obj [("telegram_user_id", Json.str "abc")])]
    [] [("telegram_user_id", Json.str "abc")]
    (Json.str "abc") (.valueError "invalid literal for int() with base 10: 'abc'")
    ⟨none, none, none⟩ rfl rfl rfl rfl rfl rfl (fun h => by simp [optTruthy] at h)

/-- C5: an accepted dict payload in which the customer dict has no usable
phone (here: `phone_number` absent or a non-digit string is covered by the
`isdigit` hypothesis) and whose metadata has neither `telegram_user_id` nor
`user_id`: the endpoint answers 200 with
`{status:"error", message:"user_id not found"}`, submits exactly one admin
alert, and invokes no handler. -/
theorem C5_no_identity_fields_not_found
    (cfg : Config) (fs cs ms : List (String × Json))
    (hacc : accepts_token cfg ((fs.lookup "token").getD Json.null))
    (hc : (fs.lookup "customer").getD (Json.obj []) = Json.obj cs)
    (hp : py_isdigit ((cs.lookup "phone_number").getD (Json.str "")) = .ok false)
    (hm : (fs.lookup "metadata").getD (Json.obj []) = Json.obj ms)
    (ht : ms.lookup "telegram_user_id" = none)
    (hu : ms.lookup "user_id" = none) :
    (webhook_kirvano cfg (Json.obj fs) none).status = 200 ∧
    (webhook_kirvano cfg (Json.obj fs) none).body =
      Json.obj [("status", Json.str "error"), ("message", Json.str "user_id not found")] ∧
    (webhook_kirvano cfg (Json.obj fs) none).notifications.length = 1 ∧
    (webhook_kirvano cfg (Json.obj fs) none).handlers = [] := by
  have hext : extract_user_id_from_kirvano_data (Json.obj fs) = .ok none := by
    unfold extract_user_id_from_kirvano_data
    simp only [dictGetD, hc, hp, hm, ht, hu, Option.getD_none, Json.truthy,
      Bool.false_eq_true, if_false]
  rw [webhook_accepted_eval cfg fs hacc, hext]
  exact ⟨rfl, rfl, rfl, rfl⟩

/-- C5 witness: payload with an empty customer and empty metadata. -/
theorem C5_no_identity_fields_not_found_witness :
    (webhook_kirvano ⟨none, none, none⟩
        (Json.obj [("event", Json.str "SALE_APPROVED"), ("customer", Json.obj []),
                   ("metadata", Json.obj [])]) none).status = 200 ∧
    (webhook_kirvano ⟨none, none, none⟩
        (Json.obj [("event", Json.str "SALE_APPROVED"), ("customer", Json.obj []),
                   ("metadata", Json.obj [])]) none).body =
      Json.obj [("status", Json.str "error"), ("message", Json.str "user_id not found")] ∧
    (webhook_kirvano ⟨none, none, none⟩
        (Json.obj [("event", Json.str "SALE_APPROVED"), ("customer", Json.obj []),
                   ("metadata", Json.obj [])]) none).notifications.length = 1 ∧
    (webhook_kirvano ⟨none, none, none⟩
        (Json.obj [("event", Json.str "SALE_APPROVED"), ("customer", Json.obj []),
                   ("metadata", Json.obj [])]) none).handlers = [] :=
  C5_no_identity_fields_not_found ⟨none, none, none⟩
    [("event", Json.str "SALE_APPROVED"), ("customer", Json.obj []), ("metadata", Json.obj [])]
    [] []
    (fun h => by simp [optTruthy] at h) rfl rfl rfl rfl rfl

/-- C6: an accepted request whose user id resolves to a nonzero value and
whose event string is none of the five recognized ones invokes no handler,
submits no notification, and answers
`200 {status:"success", message:"Webhook processado", event:<the event>}`,
echoing the event type. -/
theorem C6_unrecognized_event_no_handler
    (cfg : Config) (fs : List (String × Json)) (n : Int) (ev : String)
    (hacc : accepts_token cfg ((fs.lookup "token").getD Json.null))
    (hext : extract_user_id_from_kirvano_data (Json.obj fs) = .ok (some n))
    (hn : n ≠ 0)
    (hev : fs.lookup "event" = some (Json.str ev))
    (h1 : ev ≠ "SALE_APPROVED")
    (h2 : ev ≠ "SUBSCRIPTION_CREATED")
    (h3 : ev ≠ "SUBSCRIPTION_RENEWED")
    (h4 : ev ≠ "SUBSCRIPTION_CANCELED")
    (h5 : ev ≠ "REFUND_REQUESTED") :
    webhook_kirvano cfg (Json.obj fs) none =
      { status := 200
        body := Json.obj [("status", Json.str "success"),
                          ("message", Json.str "Webhook processado"),
                          ("event", Json.str ev)]
        notifications := []
        handlers := [] } := by
  have hD : dispatch_evento (Json.str ev) n (Json.obj fs) = .ok ([], []) := by
    unfold dispatch_evento
    simp [pyEqStr, h1, h2, h3, h4, h5]
  rw [webhook_accepted_eval cfg fs hacc, hext]
  simp only [hev, Option.getD_some, hD, beq_iff_eq, hn, if_false]

/-- C6 witness: user id from an all-digit phone, event `"FOO_BAR"`. -/
theorem C6_unrecognized_event_no_handler_witness :
    webhook_kirvano ⟨none, none, none⟩
        (Json.obj [("event", Json.str "FOO_BAR"),
                   ("customer", Json.obj [("phone_number", Json.str "77")])]) none =
      { status := 200
        body := Json.obj [("status", Json.str "success"),
                          ("message", Json.str "Webhook processado"),
                          ("event", Json.str "FOO_BAR")]
        notifications := []
        handlers := [] } :=
  C6_unrecognized_event_no_handler ⟨none, none, none⟩
    [("event", Json.str "FOO_BAR"),
     ("customer", Json.obj [("phone_number", Json.str "77")])]
    77 "FOO_BAR"
    (fun h => by simp [optTruthy] at h) rfl (by decide) rfl
    (by decide) (by decide) (by decide) (by decide) (by decide)

/-- C7: `processar_assinatura_criada` delegates verbatim to
`processar_venda_aprovada`: for every resolved user id and payload the two
event types run the same handling routine and submit identical notification
messages. -/
theorem C7_subscription_created_reuses_sale_approved (user_id : Int) (data : Json) :
    processar_assinatura_criada user_id data = processar_venda_aprovada user_id data :=
  rfl

/-- C8: when `BOT_TOKEN` or `ADMIN_CHAT_ID` is unset (or empty, which Python
treats the same under `not`), `notificar_admin` returns with no outbound
request attempted, for every message and every network behaviour, and the
`.ok` shows no exception reaches the caller. -/
theorem C8_notifier_skips_when_unconfigured (cfg : Config) (mensagem : String)
    (net : TelegramRequest → NetOutcome)
    (h : optTruthy cfg.botToken = false ∨ optTruthy cfg.adminChatId = false) :
    notificar_admin cfg mensagem net = .ok none := by
  unfold notificar_admin
  rcases h with h | h <;> simp [h]

/-- C8 witness: credential unset, destination set. -/
theorem C8_notifier_skips_when_unconfigured_witness :
    notificar_admin ⟨some "secret", none, some "12345"⟩ "hello"
        (fun _ => NetOutcome.status 200) = .ok none :=
  C8_notifier_skips_when_unconfigured ⟨some "secret", none, some "12345"⟩ "hello"
    (fun _ => NetOutcome.status 200) (Or.inl rfl)

/-- C9: a resolved id of 0 is falsy, so `if not user_id_telegram:` treats it
exactly like absence: any accepted dict payload whose extraction yields
`some 0` gets `200 {status:"error", message:"user_id not found"}` and no
handler. Concretely, `customer.phone_number = "0"` extracts to `0` and a
numeric `metadata.telegram_user_id = 0` is already skipped inside extraction
by the `or`/`if user_id:` truthiness checks (yielding None), so both land in
the same not-found response. -/
theorem C9_zero_id_treated_as_not_found
    (cfg : Config) (fs : List (String × Json))
    (hacc : accepts_token cfg ((fs.lookup "token").getD Json.null))
    (hext : extract_user_id_from_kirvano_data (Json.obj fs) = .ok (some 0)) :
    ((webhook_kirvano cfg (Json.obj fs) none).status = 200 ∧
     (webhook_kirvano cfg (Json.obj fs) none).body =
       Json.obj [("status", Json.str "error"), ("message", Json.str "user_id not found")] ∧
     (webhook_kirvano cfg (Json.obj fs) none).handlers = []) ∧
    extract_user_id_from_kirvano_data
        (Json.obj [("customer", Json.obj [("phone_number", Json.str "0")])]) =
      .ok (some 0) ∧
    extract_user_id_from_kirvano_data
        (Json.obj [("metadata", Json.obj [("telegram_user_id", Json.int 0)])]) =
      .ok none ∧
    (webhook_kirvano ⟨none, none, none⟩
        (Json.obj [("metadata", Json.obj [("telegram_user_id", Json.int 0)])]) none).body =
      Json.obj [("status", Json.str "error"), ("message", Json.str "user_id not found")] := by
  rw [webhook_accepted_eval cfg fs hacc, hext]
  exact ⟨⟨rfl, rfl, rfl⟩, rfl, rfl, rfl⟩

/-- C9 witness: the `customer.phone_number = "0"` payload. -/
theorem C9_zero_id_treated_as_not_found_witness :
    (webhook_kirvano ⟨none, none, none⟩
        (Json.obj [("customer", Json.obj [("phone_number", Json.str "0")])]) none).status = 200 ∧
    (webhook_kirvano ⟨none, none, none⟩
        (Json.obj [("customer", Json.obj [("phone_number", Json.str "0")])]) none).body =
      Json.obj [("status", Json.str "error"), ("message", Json.str "user_id not found")] ∧
    (webhook_kirvano ⟨none, none, none⟩
        (Json.obj [("customer", Json.obj [("phone_number", Json.str "0")])]) none).handlers = [] :=
  (C9_zero_id_treated_as_not_found ⟨none, none, none⟩
    [("customer", Json.obj [("phone_number", Json.str "0")])]
    (fun h => by simp [optTruthy] at h) rfl).1

/-- C10: a `customer` key holding `null`, or a `customer` dict whose
`phone_number` holds `null`, makes extraction raise `AttributeError`
(attribute access on `None`) instead of falling through to the metadata
lookups; the endpoint's blanket handler then answers HTTP 500 with the
exception text and submits one admin alert. -/
theorem C10_null_customer_or_phone_raises
    (cfg : Config) (fs : List (String × Json))
    (hacc : accepts_token cfg ((fs.lookup "token").getD Json.null)) :
    (fs.lookup "customer" = some Json.null →
      extract_user_id_from_kirvano_data (Json.obj fs) =
        .error (.attributeError "'NoneType' object has no attribute 'get'") ∧
      (webhook_kirvano cfg (Json.obj fs) none).status = 500 ∧
      (webhook_kirvano cfg (Json.obj fs) none).body =
        Json.obj [("status", Json.str "error"),
                  ("message", Json.str "'NoneType' object has no attribute 'get'")] ∧
      (webhook_kirvano cfg (Json.obj fs) none).notifications =
        ["❌ Erro no webhook:\n\n'NoneType' object has no attribute 'get'"]) ∧
    (∀ cs, fs.lookup "customer" = some (Json.obj cs) →
      cs.lookup "phone_number" = some Json.null →
      extract_user_id_from_kirvano_data (Json.obj fs) =
        .error (.attributeError "'NoneType' object has no attribute 'isdigit'") ∧
      (webhook_kirvano cfg (Json.obj fs) none).status = 500 ∧
      (webhook_kirvano cfg (Json.obj fs) none).body =
        Json.obj [("status", Json.str "error"),
                  ("message", Json.str "'NoneType' object has no attribute 'isdigit'")] ∧
      (webhook_kirvano cfg (Json.obj fs) none).notifications =
        ["❌ Erro no webhook:\n\n'NoneType' object has no attribute 'isdigit'"]) := by
  constructor
  · intro hnull
    have hext : extract_user_id_from_kirvano_data (Json.obj fs) =
        .error (.attributeError "'NoneType' object has no attribute 'get'") := by
      unfold extract_user_id_from_kirvano_data
      simp only [dictGetD, hnull, Option.getD_some]
    refine ⟨hext, ?_, ?_, ?_⟩ <;> · rw [webhook_accepted_eval cfg fs hacc, hext]; try rfl
  · intro cs hcs hpn
    have hext : extract_user_id_from_kirvano_data (Json.obj fs) =
        .error (.attributeError "'NoneType' object has no attribute 'isdigit'") := by
      unfold extract_user_id_from_kirvano_data
      simp only [dictGetD, hcs, hpn, Option.getD_some, py_isdigit]
    refine ⟨hext, ?_, ?_, ?_⟩ <;> · rw [webhook_accepted_eval cfg fs hacc, hext]; try rfl

/-- C10 witness: both null shapes at concrete payloads. -/
theorem C10_null_customer_or_phone_raises_witness :
    (webhook_kirvano ⟨none, none, none⟩
        (Json.obj [("customer", Json.null)]) none).status = 500 ∧
    (webhook_kirvano ⟨none, none, none⟩
        (Json.obj [("customer", Json.obj [("phone_number", Json.null)])]) none).status = 500 :=
  ⟨((C10_null_customer_or_phone_raises ⟨none, none, none⟩
      [("customer", Json.null)]
      (fun h => by simp [optTruthy] at h)).1 rfl).2.1,
   ((C10_null_customer_or_phone_raises ⟨none, none, none⟩
      [("customer", Json.obj [("phone_number", Json.null)])]
      (fun h => by simp [optTruthy] at h)).2
      [("phone_number", Json.null)] rfl rfl).2.1⟩

end KirvanoWebhook
